import Mathlib

/-!
Shallow embedding of the RBAC / multi-tenant authorization core of the
case-management backend (src/backend/app), together with the
session-invalidating token contract.  Python endpoint functions become Lean
functions over an explicit database state; SQLAlchemy rows become records;
fallible endpoints return `Except ApiError`.  UUIDs are modelled as naturals,
timezone-aware datetimes as an absolute instant plus a display offset.
-/

namespace CaseMgmt

abbrev UUID := Nat

/-- A timezone-aware Python `datetime`: an absolute instant (seconds) plus the
offset of the timezone it is displayed in.  `astimezone` changes only the
display offset; comparison of aware datetimes compares absolute instants. -/
structure DateTimeTZ where
  instant : Int
  tzOffset : Int
deriving DecidableEq, Repr

/-- `d.astimezone(tz)` for an aware datetime: same instant, new timezone. -/
def astimezone (d : DateTimeTZ) (tz : Int) : DateTimeTZ :=
  { instant := d.instant, tzOffset := tz }

/-- Aware-datetime strict comparison `a > b` (compares absolute instants). -/
def dtGt (a b : DateTimeTZ) : Bool :=
  b.instant < a.instant

/-- `app.models.user.UserRole`. -/
inductive UserRole where
  | SUPER_ADMIN
  | ORG_ADMIN
  | STAFF_USER
  | INDIVIDUAL_USER
deriving DecidableEq, Repr

/-- The `.value` string of a `UserRole` member. -/
def UserRole.value : UserRole → String
  | .SUPER_ADMIN => "SUPER_ADMIN"
  | .ORG_ADMIN => "ORG_ADMIN"
  | .STAFF_USER => "STAFF_USER"
  | .INDIVIDUAL_USER => "INDIVIDUAL_USER"

/-- `UserRole(role_str)`: parse the enum from its value string (`ValueError`
becomes `none`). -/
def UserRole.ofValue (s : String) : Option UserRole :=
  if s = "SUPER_ADMIN" then some .SUPER_ADMIN
  else if s = "ORG_ADMIN" then some .ORG_ADMIN
  else if s = "STAFF_USER" then some .STAFF_USER
  else if s = "INDIVIDUAL_USER" then some .INDIVIDUAL_USER
  else none

/-- A row of the `users` table (`app.models.user.User`). -/
structure UserRec where
  id : UUID
  username : String
  email : String
  fullName : String
  hashedPassword : String
  role : UserRole
  organizationId : Option UUID
  isActive : Bool
  passwordChangedAt : Option DateTimeTZ
deriving DecidableEq, Repr

/-- A row of the `organizations` table (`app.models.organization.Organization`). -/
structure OrganizationRec where
  id : UUID
  name : String
  plan : String
  maxUsers : Nat
  maxCases : Nat
  isActive : Bool
deriving DecidableEq, Repr

/-- `app.models.case.CaseStatus`. -/
inductive CaseStatus where
  | OPEN
  | IN_PROGRESS
  | CLOSED
  | ARCHIVED
deriving DecidableEq, Repr

/-- `app.models.case.CasePriority`. -/
inductive CasePriority where
  | LOW
  | MEDIUM
  | HIGH
  | CRITICAL
deriving DecidableEq, Repr

/-- A row of the `cases` table (`app.models.case.Case`). -/
structure CaseRec where
  id : UUID
  title : String
  description : Option String
  status : CaseStatus
  priority : CasePriority
  tags : List String
  createdBy : UUID
  assignedTo : Option UUID
  organizationId : Option UUID
deriving DecidableEq, Repr

/-- A row of the `case_assignments` table (`app.models.case_assignment`). -/
structure CaseAssignmentRec where
  caseId : UUID
  userId : UUID
  assignedBy : Option UUID
deriving DecidableEq, Repr

/-- A row of the `evidence` table, restricted to the fields the authorization
engine consults (`app.models.evidence.Evidence`). -/
structure EvidenceRec where
  id : UUID
  caseId : UUID
  name : String
  organizationId : Option UUID
  uploadedBy : UUID
deriving DecidableEq, Repr

/-- A JSON-safe scalar stored in an audit detail blob.  Nested blobs that no
claim inspects are collapsed to `jnull`. -/
inductive JVal where
  | jnull
  | jstr (s : String)
  | jnum (n : Int)
  | jbool (b : Bool)
deriving DecidableEq, Repr

/-- A row of the `audit_logs` table (`app.models.audit_log.AuditLog`). -/
structure AuditLogRec where
  userId : UUID
  organizationId : Option UUID
  caseId : Option UUID
  action : String
  resourceType : String
  resourceId : Option UUID
  details : Option (List (String × JVal))
  ipAddress : String
  userAgent : String
deriving DecidableEq, Repr

/-- The relational store consumed by the endpoints. -/
structure Db where
  users : List UserRec
  organizations : List OrganizationRec
  cases : List CaseRec
  caseAssignments : List CaseAssignmentRec
  evidence : List EvidenceRec
  auditLogs : List AuditLogRec
deriving DecidableEq, Repr

/-- Outcome of an endpoint: an `HTTPException`, or an unhandled Python
`NameError` escaping the handler (surfaced by the framework as a 500). -/
inductive ApiError where
  | http (statusCode : Nat) (detail : String)
  | nameError (missingName : String)
deriving DecidableEq, Repr

/-- The slice of a FastAPI `Request` consulted by the audit emitter:
the two proxy headers, the transport-level peer (`request.client`), and the
user-agent header. -/
structure RequestCtx where
  xForwardedFor : Option String
  xRealIp : Option String
  clientHost : Option String
  userAgent : Option String
deriving DecidableEq, Repr

/-- Failure injection for the audit emitter: which internal step of
`create_audit_log_entry` raises, modelling serialization errors and storage
write errors. -/
structure AuditEnv where
  serializeFails : Bool
  addFails : Bool
  commitFails : Bool
  refreshFails : Bool
deriving DecidableEq, Repr

/-- The requester-IP expression of `create_audit_log_entry`
(`app/api/audit_log.py` lines 52-56).  Python parses it as
`(xff or xri or request.client.host) if request.client else "127.0.0.1"`,
the conditional binding looser than `or`. -/
def extractIp (request : RequestCtx) : String :=
  match request.clientHost with
  | none => "127.0.0.1"
  | some host =>
    let xff := (((request.xForwardedFor.getD "").splitOn ",").headD "").trim
    if xff ≠ "" then xff
    else
      let xri := request.xRealIp.getD ""
      if xri ≠ "" then xri else host

/-- The body of the `try` block of `create_audit_log_entry`
(`app/api/audit_log.py` lines 43-75), as a fallible step sequence: serialize
the details, extract the request context, build the row, `db.add`,
`db.commit`, `db.refresh`.  Each step may raise, per the `AuditEnv`. -/
def createAuditLogEntryBody (env : AuditEnv) (db : Db) (user : UserRec)
    (action resourceType : String) (resourceId : Option UUID)
    (details : Option (List (String × JVal))) (request : Option RequestCtx)
    (caseId : Option UUID) : Except String (Db × AuditLogRec) := do
  let serializedDetails ←
    match details with
    | some d =>
      if env.serializeFails then Except.error "serialization failed"
      else Except.ok (some d)
    | none => Except.ok none
  let ipAddress := match request with
    | none => "127.0.0.1"
    | some r => extractIp r
  let userAgent := match request with
    | none => "Unknown"
    | some r => r.userAgent.getD "Unknown"
  let auditLog : AuditLogRec :=
    { userId := user.id
      organizationId := user.organizationId
      caseId := caseId
      action := action
      resourceType := resourceType
      resourceId := resourceId
      details := serializedDetails
      ipAddress := ipAddress
      userAgent := userAgent }
  if env.addFails then Except.error "db.add failed"
  else
    let db1 : Db := { db with auditLogs := db.auditLogs ++ [auditLog] }
    if env.commitFails then Except.error "db.commit failed"
    else if env.refreshFails then Except.error "db.refresh failed"
    else Except.ok (db1, auditLog)

/-- `create_audit_log_entry` (`app/api/audit_log.py` lines 32-80): runs the
`try` body; on any exception it rolls the session back (discarding the pending
row, leaving the store as it was) and returns `None` instead of raising. -/
def create_audit_log_entry (env : AuditEnv) (db : Db) (user : UserRec)
    (action resourceType : String) (resourceId : Option UUID)
    (details : Option (List (String × JVal))) (request : Option RequestCtx)
    (caseId : Option UUID) : Db × Option AuditLogRec :=
  match createAuditLogEntryBody env db user action resourceType resourceId details request caseId with
  | Except.ok (db1, auditLog) => (db1, some auditLog)
  | Except.error _ => (db, none)

/-- An `AuditEnv` in which no internal step fails. -/
def auditEnvOk : AuditEnv :=
  { serializeFails := false, addFails := false, commitFails := false, refreshFails := false }

/-- The audit side effect as invoked from the endpoints (failure-free
environment): returns the store with one appended row. -/
def auditAppend (db : Db) (user : UserRec) (action resourceType : String)
    (resourceId : Option UUID) (details : Option (List (String × JVal)))
    (request : Option RequestCtx) : Db :=
  (create_audit_log_entry auditEnvOk db user action resourceType resourceId details request none).1

/-- The password-hash primitive (`app.core.security.get_password_hash`),
modelled as an injective tagging function — bcrypt itself is an external
collaborator. -/
def get_password_hash (password : String) : String :=
  "bcrypt$" ++ password

/-- `app.core.security.verify_password`. -/
def verify_password (plainPassword hashedPassword : String) : Bool :=
  get_password_hash plainPassword == hashedPassword

/-- The claim set of a decoded session token, with fields in their
post-parse types (`jwt.decode` and the string round-trips of
`str`/`isoformat` are the black-box token primitive). -/
structure TokenPayload where
  sub : Option String
  role : Option String
  organizationId : Option UUID
  passwordChangedAt : Option DateTimeTZ
deriving DecidableEq, Repr

/-- `app.core.security.create_access_token`: the claim set it signs —
subject, role value string, optional organization, and the supplied
credential-epoch timestamp. -/
def create_access_token (subject : String) (role : UserRole)
    (organizationId : Option UUID) (passwordChangedAt : DateTimeTZ) : TokenPayload :=
  { sub := some subject
    role := some role.value
    organizationId := organizationId
    passwordChangedAt := some passwordChangedAt }

/-- The 401 raised for missing or unparsable claims in `get_current_user`. -/
def credentialsException : ApiError :=
  ApiError.http 401 "Could not validate credentials"

/-- `get_current_user` (`app/api/deps.py` lines 15-84) on an
already-signature-verified payload.  `localTz` is the timezone offset that
`astimezone(datetime.utcnow().tzinfo)` normalizes both epochs into before the
strict comparison. -/
def get_current_user (db : Db) (payload : TokenPayload) (localTz : Int) :
    Except ApiError UserRec :=
  match payload.sub, payload.role, payload.passwordChangedAt with
  | some username, some roleStr, some tokenPasswordChangedAt =>
    match UserRole.ofValue roleStr with
    | none => Except.error credentialsException
    | some role =>
      match db.users.find? (fun u => u.username == username) with
      | none => Except.error credentialsException
      | some user =>
        if user.role ≠ role ∨ user.organizationId ≠ payload.organizationId then
          Except.error (ApiError.http 401 "Token mismatch with user data. Please log in again.")
        else
          match user.passwordChangedAt with
          | some userPasswordChangedAt =>
            let userPwChangedUtc := astimezone userPasswordChangedAt localTz
            let tokenPwChangedUtc := astimezone tokenPasswordChangedAt localTz
            if dtGt userPwChangedUtc tokenPwChangedUtc then
              Except.error (ApiError.http 401 "Your password has been changed. Please log in again.")
            else Except.ok user
          | none => Except.ok user
  | _, _, _ => Except.error credentialsException

/-- `get_current_active_user` (`app/api/deps.py` lines 86-91). -/
def get_current_active_user (db : Db) (payload : TokenPayload) (localTz : Int) :
    Except ApiError UserRec := do
  let currentUser ← get_current_user db payload localTz
  if ¬ currentUser.isActive then Except.error (ApiError.http 400 "Inactive user")
  else Except.ok currentUser

/-- `authenticate_user` (`app/api/auth.py` lines 15-21). -/
def authenticate_user (db : Db) (username password : String) : Option UserRec :=
  match db.users.find? (fun u => u.username == username) with
  | none => none
  | some user =>
    if ¬ verify_password password user.hashedPassword then none
    else some user

/-- `login_for_access_token` (`app/api/auth.py` lines 23-55): authenticates,
rejects inactive accounts, and issues a token embedding the identity's
current credential-epoch (falling back to `utcnow` when the stored epoch is
null). -/
def login_for_access_token (db : Db) (username password : String) (now : DateTimeTZ) :
    Except ApiError TokenPayload :=
  match authenticate_user db username password with
  | none => Except.error (ApiError.http 401 "Incorrect username or password")
  | some user =>
    if ¬ user.isActive then Except.error (ApiError.http 400 "Inactive user")
    else
      Except.ok (create_access_token user.username user.role user.organizationId
        (user.passwordChangedAt.getD now))

/-- Request body of the change-password endpoint. -/
structure ChangePasswordRequest where
  currentPassword : String
  newPassword : String
deriving DecidableEq, Repr

/-- `change_password` (`app/api/users.py` lines 277-300): verifies the old
secret, then commits a new hash together with `password_changed_at = utcnow`,
and audit-logs the change. -/
def change_password (db : Db) (currentUser : UserRec)
    (passwordData : ChangePasswordRequest) (now : DateTimeTZ)
    (request : Option RequestCtx) : Except ApiError (Db × String) :=
  if ¬ verify_password passwordData.currentPassword currentUser.hashedPassword then
    Except.error (ApiError.http 400 "Current password is incorrect")
  else
    let updatedUser : UserRec :=
      { currentUser with
        hashedPassword := get_password_hash passwordData.newPassword
        passwordChangedAt := some now }
    let db1 : Db :=
      { db with users := db.users.map (fun v => if v.id = currentUser.id then updatedUser else v) }
    let db2 := auditAppend db1 updatedUser "UPDATE" "User" (some currentUser.id)
      (some [("action", JVal.jstr "password_change")]) request
    Except.ok (db2, "Password changed successfully")

/-- Membership test against the `case_assignments` table
(`is_assigned_via_table` in `app/api/cases.py`). -/
def is_assigned_via_table (db : Db) (caseId userId : UUID) : Bool :=
  db.caseAssignments.any (fun a => a.caseId == caseId && a.userId == userId)

/-- The role-based authorization chain of `read_case`
(`app/api/cases.py` lines 145-169), after the case is found. -/
def read_case_auth (db : Db) (theCase : CaseRec) (caseId : UUID)
    (currentUser : UserRec) : Except ApiError Unit :=
  if currentUser.role = UserRole.SUPER_ADMIN then Except.ok ()
  else if currentUser.role = UserRole.ORG_ADMIN then
    if theCase.organizationId ≠ currentUser.organizationId then
      Except.error (ApiError.http 403 "Not authorized to access this case.")
    else Except.ok ()
  else if currentUser.role = UserRole.STAFF_USER then
    if theCase.createdBy ≠ currentUser.id ∧ theCase.assignedTo ≠ some currentUser.id ∧
        ¬ is_assigned_via_table db caseId currentUser.id then
      Except.error (ApiError.http 403 "Not authorized to access this case.")
    else Except.ok ()
  else
    if theCase.createdBy ≠ currentUser.id ∧ theCase.assignedTo ≠ some currentUser.id ∧
        ¬ is_assigned_via_table db caseId currentUser.id then
      Except.error (ApiError.http 403 "Not authorized to access this case.")
    else Except.ok ()

/-- The role-based authorization chain of `update_case`
(`app/api/cases.py` lines 189-213), after the case is found. -/
def update_case_auth (db : Db) (theCase : CaseRec) (caseId : UUID)
    (currentUser : UserRec) : Except ApiError Unit :=
  if currentUser.role = UserRole.SUPER_ADMIN then Except.ok ()
  else if currentUser.role = UserRole.ORG_ADMIN then
    if theCase.organizationId ≠ currentUser.organizationId then
      Except.error (ApiError.http 403 "Not authorized to update this case.")
    else Except.ok ()
  else if currentUser.role = UserRole.STAFF_USER then
    if theCase.createdBy ≠ currentUser.id ∧ theCase.assignedTo ≠ some currentUser.id ∧
        ¬ is_assigned_via_table db caseId currentUser.id then
      Except.error (ApiError.http 403 "Not authorized to update this case.")
    else Except.ok ()
  else
    if theCase.createdBy ≠ currentUser.id ∧ theCase.assignedTo ≠ some currentUser.id ∧
        ¬ is_assigned_via_table db caseId currentUser.id then
      Except.error (ApiError.http 403
        "Individual users can only update their own cases or cases assigned to them.")
    else Except.ok ()

/-- The role-based authorization chain of `delete_case`
(`app/api/cases.py` lines 239-248): only admins and Individual creators pass;
Staff users — assigned or not, creator or not — fall into the final `else`. -/
def delete_case_auth (theCase : CaseRec) (currentUser : UserRec) :
    Except ApiError Unit :=
  if currentUser.role = UserRole.SUPER_ADMIN then Except.ok ()
  else if currentUser.role = UserRole.ORG_ADMIN then
    if theCase.organizationId ≠ currentUser.organizationId then
      Except.error (ApiError.http 403 "Not authorized to delete this case.")
    else Except.ok ()
  else if currentUser.role = UserRole.INDIVIDUAL_USER ∧ theCase.createdBy = currentUser.id then
    Except.ok ()
  else
    Except.error (ApiError.http 403 "Not authorized to delete this case.")

/-- `read_case` (`app/api/cases.py` lines 128-174). -/
def read_case (db : Db) (caseId : UUID) (currentUser : UserRec)
    (request : Option RequestCtx) : Except ApiError (Db × CaseRec) :=
  match db.cases.find? (fun c => c.id == caseId) with
  | none => Except.error (ApiError.http 404 "Case not found.")
  | some theCase => do
    read_case_auth db theCase caseId currentUser
    let db1 := auditAppend db currentUser "READ" "Case" (some theCase.id)
      (some [("title", JVal.jstr theCase.title)]) request
    Except.ok (db1, theCase)

/-- Request body of the case-update endpoint (`CaseUpdate` schema); a `some`
field is one present in the request (`exclude_unset`). -/
structure CaseUpdateIn where
  title : Option String
  description : Option String
  status : Option CaseStatus
  priority : Option CasePriority
  assignedTo : Option UUID
  tags : Option (List String)
deriving DecidableEq, Repr

/-- The `setattr` loop of `update_case` applied to a case row. -/
def apply_case_update (theCase : CaseRec) (u : CaseUpdateIn) : CaseRec :=
  { theCase with
    title := u.title.getD theCase.title
    description := match u.description with
      | some d => some d
      | none => theCase.description
    status := u.status.getD theCase.status
    priority := u.priority.getD theCase.priority
    assignedTo := match u.assignedTo with
      | some a => some a
      | none => theCase.assignedTo
    tags := u.tags.getD theCase.tags }

/-- `update_case` (`app/api/cases.py` lines 176-225). -/
def update_case (db : Db) (caseId : UUID) (caseUpdate : CaseUpdateIn)
    (currentUser : UserRec) (request : Option RequestCtx) :
    Except ApiError (Db × CaseRec) :=
  match db.cases.find? (fun c => c.id == caseId) with
  | none => Except.error (ApiError.http 404 "Case not found.")
  | some theCase => do
    update_case_auth db theCase caseId currentUser
    let updatedCase := apply_case_update theCase caseUpdate
    let db1 : Db :=
      { db with cases := db.cases.map (fun c => if c.id = theCase.id then updatedCase else c) }
    let db2 := auditAppend db1 currentUser "UPDATE" "Case" (some updatedCase.id)
      (some [("updated_fields", JVal.jnull)]) request
    Except.ok (db2, updatedCase)

/-- `delete_case` (`app/api/cases.py` lines 227-266): after the authorization
chain, the evidence rows and assignment rows of the case are deleted
explicitly before the case row itself. -/
def delete_case (db : Db) (caseId : UUID) (currentUser : UserRec)
    (request : Option RequestCtx) : Except ApiError (Db × Unit) :=
  match db.cases.find? (fun c => c.id == caseId) with
  | none => Except.error (ApiError.http 404 "Case not found.")
  | some theCase => do
    delete_case_auth theCase currentUser
    let db1 : Db := { db with evidence := db.evidence.filter (fun e => ¬ e.caseId = caseId) }
    let db2 : Db := { db1 with caseAssignments := db1.caseAssignments.filter (fun a => ¬ a.caseId = caseId) }
    let db3 : Db := { db2 with cases := db2.cases.filter (fun c => ¬ c.id = caseId) }
    let db4 := auditAppend db3 currentUser "DELETE" "Case" (some caseId)
      (some [("title", JVal.jstr theCase.title)]) request
    Except.ok (db4, ())

/-- Request body of the case-creation endpoint (`CaseCreate` schema). -/
structure CaseCreateIn where
  title : String
  description : Option String
  status : CaseStatus
  priority : CasePriority
  tags : List String
  organizationId : Option UUID
deriving DecidableEq, Repr

/-- `create_case` (`app/api/cases.py` lines 22-60).  In the Super-Admin
branch with an `organization_id` supplied, the source evaluates
`db.query(Organization)` but `Organization` is never imported in
`app/api/cases.py`, so that path raises `NameError` instead of validating the
organization and creating the case. -/
def create_case (db : Db) (caseIn : CaseCreateIn) (currentUser : UserRec)
    (newId : UUID) (request : Option RequestCtx) : Except ApiError (Db × CaseRec) :=
  let branch : Except ApiError (Option UUID) :=
    if currentUser.role = UserRole.SUPER_ADMIN then
      if caseIn.organizationId = none then
        Except.error (ApiError.http 400
          "Super Admin must specify an organization_id when creating a case.")
      else
        Except.error (ApiError.nameError "Organization")
    else if currentUser.role = UserRole.INDIVIDUAL_USER then
      Except.ok none
    else
      if currentUser.organizationId = none then
        Except.error (ApiError.http 400 "User must belong to an organization to create a case.")
      else if caseIn.organizationId ≠ none ∧ caseIn.organizationId ≠ currentUser.organizationId then
        Except.error (ApiError.http 403 "Cannot create cases for other organizations.")
      else Except.ok currentUser.organizationId
  match branch with
  | Except.error e => Except.error e
  | Except.ok organizationIdToAssign =>
    let theCase : CaseRec :=
      { id := newId
        title := caseIn.title
        description := caseIn.description
        status := caseIn.status
        priority := caseIn.priority
        tags := caseIn.tags
        createdBy := currentUser.id
        assignedTo := none
        organizationId := organizationIdToAssign }
    let db1 : Db := { db with cases := db.cases ++ [theCase] }
    let db2 := auditAppend db1 currentUser "CREATE" "Case" (some theCase.id)
      (some [("title", JVal.jstr theCase.title)]) request
    Except.ok (db2, theCase)

/-- `assign_users_to_case` (`app/api/cases.py` lines 301-359).  The validity
check compares the count of distinct matching active users against the raw
length of the request list; already-existing `(case, user)` pairs — including
pairs added earlier in the same loop, visible through session autoflush — are
silently skipped. -/
def assign_users_to_case (db : Db) (caseId : UUID) (userIds : List UUID)
    (currentUser : UserRec) (request : Option RequestCtx) :
    Except ApiError (Db × List UUID) :=
  match db.cases.find? (fun c => c.id == caseId) with
  | none => Except.error (ApiError.http 404 "Case not found.")
  | some theCase =>
    let authCheck : Except ApiError Unit :=
      if currentUser.role = UserRole.SUPER_ADMIN then Except.ok ()
      else if currentUser.role = UserRole.ORG_ADMIN then
        if theCase.organizationId ≠ currentUser.organizationId then
          Except.error (ApiError.http 403 "Not authorized to assign users to this case.")
        else Except.ok ()
      else Except.error (ApiError.http 403 "Not authorized to assign users to cases.")
    match authCheck with
    | Except.error e => Except.error e
    | Except.ok _ =>
      let users := db.users.filter (fun u => userIds.contains u.id && u.isActive)
      if users.length ≠ userIds.length then
        Except.error (ApiError.http 400 "One or more user IDs are invalid or inactive.")
      else
        let orgCheck : Except ApiError Unit :=
          match theCase.organizationId with
          | some _ =>
            let invalidUsers := users.filter (fun u => u.organizationId ≠ theCase.organizationId)
            if invalidUsers ≠ [] then
              Except.error (ApiError.http 400
                "All assigned users must belong to the case's organization.")
            else Except.ok ()
          | none => Except.ok ()
        match orgCheck with
        | Except.error e => Except.error e
        | Except.ok _ =>
          let step := fun (acc : List CaseAssignmentRec × List UUID) (userId : UUID) =>
            if (acc.1.find? (fun a => a.caseId == caseId && a.userId == userId)).isSome then acc
            else (acc.1 ++ [{ caseId := caseId, userId := userId, assignedBy := some currentUser.id }],
                  acc.2 ++ [userId])
          let result := userIds.foldl step (db.caseAssignments, [])
          let db1 : Db := { db with caseAssignments := result.1 }
          let db2 := auditAppend db1 currentUser "ASSIGN" "Case" (some caseId)
            (some [("assigned_users", JVal.jnull)]) request
          Except.ok (db2, result.2)

/-- `read_evidence_for_case` (`app/api/evidence.py` lines 296-318): the only
authorization check is Super-Admin or organization match — no case-level
creator/assignee predicate. -/
def read_evidence_for_case (db : Db) (caseId : UUID) (skip limit : Nat)
    (currentUser : UserRec) (request : Option RequestCtx) :
    Except ApiError (Db × List EvidenceRec) :=
  match db.cases.find? (fun c => c.id == caseId) with
  | none => Except.error (ApiError.http 404 "Case not found.")
  | some theCase =>
    if currentUser.role ≠ UserRole.SUPER_ADMIN ∧
        theCase.organizationId ≠ currentUser.organizationId then
      Except.error (ApiError.http 403 "Not authorized to view evidence for this case.")
    else
      let evidenceRows := ((db.evidence.filter (fun e => e.caseId == caseId)).drop skip).take limit
      let db1 := auditAppend db currentUser "READ" "Evidence" none
        (some [("action", JVal.jstr "list_evidence_for_case")]) request
      Except.ok (db1, evidenceRows)

/-- Request body of the user-creation endpoint (`UserCreate` schema). -/
structure UserCreateIn where
  username : String
  email : String
  fullName : String
  role : UserRole
  isActive : Bool
  organizationId : Option UUID
  password : String
deriving DecidableEq, Repr

/-- `create_user` (`app/api/users.py` lines 57-151). -/
def create_user (db : Db) (userIn : UserCreateIn) (currentUser : UserRec)
    (newId : UUID) (now : DateTimeTZ) (request : Option RequestCtx) :
    Except ApiError (Db × UserRec) :=
  if (db.users.find? (fun u => u.username == userIn.username)).isSome then
    Except.error (ApiError.http 400 "Username already registered")
  else if (db.users.find? (fun u => u.email == userIn.email)).isSome then
    Except.error (ApiError.http 400 "Email already registered")
  else if userIn.role = UserRole.INDIVIDUAL_USER ∧ userIn.organizationId ≠ none then
    Except.error (ApiError.http 400 "Individual users cannot be assigned to an organization.")
  else
  let organizationIdToAssign0 :=
    if userIn.role = UserRole.INDIVIDUAL_USER then none else userIn.organizationId
  let branch : Except ApiError (Option UUID) :=
    if currentUser.role = UserRole.SUPER_ADMIN then
      if (userIn.role = UserRole.STAFF_USER ∨ userIn.role = UserRole.ORG_ADMIN) ∧
          organizationIdToAssign0 = none then
        Except.error (ApiError.http 400
          "Staff users and Organization Administrators must be assigned to an organization.")
      else
        match organizationIdToAssign0 with
        | some orgId =>
          if (db.organizations.find? (fun o => o.id == orgId)).isNone then
            Except.error (ApiError.http 404 "Organization not found.")
          else Except.ok organizationIdToAssign0
        | none => Except.ok organizationIdToAssign0
    else if currentUser.role = UserRole.ORG_ADMIN then
      if currentUser.organizationId = none then
        Except.error (ApiError.http 400 "Organization Admin must belong to an organization.")
      else if userIn.organizationId ≠ none ∧ userIn.organizationId ≠ currentUser.organizationId then
        Except.error (ApiError.http 403
          "Organization Admin can only create users within their own organization.")
      else if userIn.role = UserRole.SUPER_ADMIN ∨ userIn.role = UserRole.ORG_ADMIN then
        Except.error (ApiError.http 403
          "Organization Admin cannot create Super Admin or other Organization Admin users.")
      else if userIn.role = UserRole.STAFF_USER then
        Except.ok currentUser.organizationId
      else Except.ok organizationIdToAssign0
    else
      Except.error (ApiError.http 403 "Not enough permissions to create users.")
  match branch with
  | Except.error e => Except.error e
  | Except.ok organizationIdToAssign =>
  let dbUser : UserRec :=
    { id := newId
      username := userIn.username
      email := userIn.email
      fullName := userIn.fullName
      hashedPassword := get_password_hash userIn.password
      role := userIn.role
      organizationId := organizationIdToAssign
      isActive := userIn.isActive
      passwordChangedAt := some now }
  let db1 : Db := { db with users := db.users ++ [dbUser] }
  let db2 := auditAppend db1 currentUser "CREATE" "User" (some newId)
    (some [("username", JVal.jstr dbUser.username), ("role", JVal.jstr dbUser.role.value)]) request
  Except.ok (db2, dbUser)

/-- Request body of the user-update endpoint (`UserUpdate` schema with
`exclude_unset`): the outer `Option` is presence of the field in the request;
for `organizationId` the inner `Option` is the supplied value, which may be
an explicit null. -/
structure UserUpdateIn where
  username : Option String
  email : Option String
  fullName : Option String
  role : Option UserRole
  isActive : Option Bool
  password : Option String
  organizationId : Option (Option UUID)
deriving DecidableEq, Repr

/-- The `update_data` application loop of `update_user`, including the
password re-hash and the `password_changed_at` bump. -/
def apply_user_update (u : UserRec) (upd : UserUpdateIn) (now : DateTimeTZ) : UserRec :=
  let afterPassword :=
    match upd.password with
    | some pw =>
      { u with hashedPassword := get_password_hash pw, passwordChangedAt := some now }
    | none => u
  { afterPassword with
    username := upd.username.getD afterPassword.username
    email := upd.email.getD afterPassword.email
    fullName := upd.fullName.getD afterPassword.fullName
    role := upd.role.getD afterPassword.role
    isActive := upd.isActive.getD afterPassword.isActive
    organizationId := match upd.organizationId with
      | some v => v
      | none => afterPassword.organizationId }

/-- `update_user` (`app/api/users.py` lines 153-230).  The value-level tests
`user_update.organization_id is not None` of the source correspond to
`upd.organizationId.join ≠ none` (an explicitly-null field is present but has
value `None`). -/
def update_user (db : Db) (userId : UUID) (userUpdate : UserUpdateIn)
    (currentUser : UserRec) (now : DateTimeTZ) (request : Option RequestCtx) :
    Except ApiError (Db × UserRec) :=
  match db.users.find? (fun u => u.id == userId) with
  | none => Except.error (ApiError.http 404 "User not found")
  | some userToUpdate =>
    if currentUser.id = userId ∧ currentUser.role = UserRole.SUPER_ADMIN ∧
        userUpdate.isActive = some false then
      Except.error (ApiError.http 400
        "Super Admin cannot mark themselves as inactive. This must be done by another Super Admin.")
    else
    let authCheck : Except ApiError Unit :=
      if currentUser.role = UserRole.SUPER_ADMIN then Except.ok ()
      else if currentUser.role = UserRole.ORG_ADMIN then
        if currentUser.organizationId = none then
          Except.error (ApiError.http 400 "Organization Admin must belong to an organization.")
        else if userToUpdate.organizationId ≠ currentUser.organizationId then
          Except.error (ApiError.http 403
            "Organization Admin can only update users within their own organization.")
        else if userUpdate.role = some UserRole.SUPER_ADMIN ∨ userUpdate.role = some UserRole.ORG_ADMIN then
          Except.error (ApiError.http 403
            "Organization Admin cannot assign Super Admin or Organization Admin roles.")
        else if userUpdate.organizationId.join ≠ none ∧
            userUpdate.organizationId.join ≠ currentUser.organizationId then
          Except.error (ApiError.http 403 "Organization Admin cannot change organization of users.")
        else Except.ok ()
      else if currentUser.id = userId then
        if userUpdate.role ≠ none ∨ userUpdate.organizationId.join ≠ none then
          Except.error (ApiError.http 403 "Users cannot change their own role or organization.")
        else Except.ok ()
      else
        Except.error (ApiError.http 403 "Not enough permissions to update this user.")
    match authCheck with
    | Except.error e => Except.error e
    | Except.ok _ =>
      let updatedUser := apply_user_update userToUpdate userUpdate now
      let db1 : Db :=
        { db with users := db.users.map (fun v => if v.id = userToUpdate.id then updatedUser else v) }
      let db2 := auditAppend db1 currentUser "UPDATE" "User" (some updatedUser.id)
        (some [("updated_fields", JVal.jnull)]) request
      Except.ok (db2, updatedUser)

/-- Request body of the organization-update endpoint (`OrganizationUpdate`
schema with `exclude_unset`). -/
structure OrganizationUpdateIn where
  name : Option String
  plan : Option String
  maxUsers : Option Nat
  maxCases : Option Nat
  isActive : Option Bool
deriving DecidableEq, Repr

/-- The `setattr` loop of `update_organization` applied to the row. -/
def apply_org_update (org : OrganizationRec) (u : OrganizationUpdateIn) : OrganizationRec :=
  { org with
    name := u.name.getD org.name
    plan := u.plan.getD org.plan
    maxUsers := u.maxUsers.getD org.maxUsers
    maxCases := u.maxCases.getD org.maxCases
    isActive := u.isActive.getD org.isActive }

/-- `update_organization` (`app/api/organizations.py` lines 97-130,
Super-Admin only by dependency).  A flip of `is_active` from true to false
runs a bulk update of every user row whose `organization_id` matches —
already-inactive members included — and audit-logs the cascade with the bulk
update's matched-row count. -/
def update_organization (db : Db) (orgId : UUID) (orgUpdate : OrganizationUpdateIn)
    (currentUser : UserRec) (request : Option RequestCtx) :
    Except ApiError (Db × OrganizationRec) :=
  match db.organizations.find? (fun o => o.id == orgId) with
  | none => Except.error (ApiError.http 404 "Organization not found.")
  | some organization =>
    let afterCascade : Db :=
      if orgUpdate.isActive = some false ∧ organization.isActive = true then
        let affectedUsers := (db.users.filter (fun u => u.organizationId == some orgId)).length
        let dbA : Db :=
          { db with users := db.users.map (fun u =>
              if u.organizationId == some orgId then { u with isActive := false } else u) }
        auditAppend dbA currentUser "UPDATE" "User" none
          (some [("action", JVal.jstr "cascade_deactivate_users"),
                 ("organization_id", JVal.jstr (toString orgId)),
                 ("affected_users_count", JVal.jnum affectedUsers)]) request
      else db
    let updatedOrg := apply_org_update organization orgUpdate
    let db2 : Db :=
      { afterCascade with organizations :=
          afterCascade.organizations.map (fun o => if o.id = organization.id then updatedOrg else o) }
    let db3 := auditAppend db2 currentUser "UPDATE" "Organization" (some updatedOrg.id)
      (some [("updated_fields", JVal.jnull)]) request
    Except.ok (db3, updatedOrg)

/-- Response body of `request_password_reset`. -/
structure PasswordResetResponse where
  message : String
  token : Option String
deriving DecidableEq, Repr

/-- `request_password_reset` (`app/api/users.py` lines 353-372): an unknown
email returns only the generic message; a known email also stores a reset
token in the in-memory map and returns it in the response body. -/
def request_password_reset (db : Db) (tokens : List (String × UUID × DateTimeTZ))
    (email : String) (newToken : String) (now : DateTimeTZ) :
    List (String × UUID × DateTimeTZ) × PasswordResetResponse :=
  match db.users.find? (fun u => u.email == email) with
  | none =>
    (tokens, { message := "If the email exists, a password reset link has been sent.", token := none })
  | some user =>
    let expires : DateTimeTZ := { instant := now.instant + 3600, tzOffset := now.tzOffset }
    ((newToken, user.id, expires) :: tokens,
     { message := "If the email exists, a password reset link has been sent.", token := some newToken })

/-- Whether an `Except` decision allows the operation. -/
def allows (e : Except ApiError Unit) : Bool :=
  match e with
  | Except.ok _ => true
  | Except.error _ => false

/-- Recognizes the cascade-deactivation audit entry
(`UPDATE User — cascade_deactivate_users`). -/
def isCascadeEntry (e : AuditLogRec) : Bool :=
  e.action == "UPDATE" && e.resourceType == "User" &&
    ((e.details.getD []).lookup "action" == some (JVal.jstr "cascade_deactivate_users"))

/-- The cascade-deactivation audit row as `update_organization` constructs it. -/
def cascadeAuditEntry (db : Db) (orgId : UUID) (currentUser : UserRec)
    (request : Option RequestCtx) : AuditLogRec :=
  { userId := currentUser.id
    organizationId := currentUser.organizationId
    caseId := none
    action := "UPDATE"
    resourceType := "User"
    resourceId := none
    details := some [("action", JVal.jstr "cascade_deactivate_users"),
      ("organization_id", JVal.jstr (toString orgId)),
      ("affected_users_count", JVal.jnum
        ((List.filter (fun u => u.organizationId == some orgId) db.users).length : Int))]
    ipAddress := match request with | none => "127.0.0.1" | some r => extractIp r
    userAgent := match request with | none => "Unknown" | some r => r.userAgent.getD "Unknown" }

/-- The organization-update audit row as `update_organization` constructs it. -/
def orgUpdateAuditEntry (org : OrganizationRec) (orgUpdate : OrganizationUpdateIn)
    (currentUser : UserRec) (request : Option RequestCtx) : AuditLogRec :=
  { userId := currentUser.id
    organizationId := currentUser.organizationId
    caseId := none
    action := "UPDATE"
    resourceType := "Organization"
    resourceId := some (apply_org_update org orgUpdate).id
    details := some [("updated_fields", JVal.jnull)]
    ipAddress := match request with | none => "127.0.0.1" | some r => extractIp r
    userAgent := match request with | none => "Unknown" | some r => r.userAgent.getD "Unknown" }

/-! ### Concrete fixtures used by counterexamples and witnesses -/

/-- An instant used where the exact time is irrelevant. -/
def dtZero : DateTimeTZ := { instant := 0, tzOffset := 0 }

/-- A Super-Admin account. -/
def saUser : UserRec :=
  { id := 1, username := "root", email := "root@example.com", fullName := "Root"
    hashedPassword := "bcrypt$rootpw", role := UserRole.SUPER_ADMIN
    organizationId := none, isActive := true, passwordChangedAt := none }

/-- An Individual-tier account with no tenant. -/
def indivUser : UserRec :=
  { id := 2, username := "indie", email := "indie@example.com", fullName := "Indie"
    hashedPassword := "bcrypt$indiepw", role := UserRole.INDIVIDUAL_USER
    organizationId := none, isActive := true, passwordChangedAt := none }

/-- An organization. -/
def orgAcme : OrganizationRec :=
  { id := 10, name := "Acme", plan := "free", maxUsers := 10, maxCases := 50, isActive := true }

/-- An active Staff member of `orgAcme`. -/
def memberActive : UserRec :=
  { id := 21, username := "m1", email := "m1@example.com", fullName := "M One"
    hashedPassword := "bcrypt$m1pw", role := UserRole.STAFF_USER
    organizationId := some 10, isActive := true, passwordChangedAt := none }

/-- An already-inactive Staff member of `orgAcme`. -/
def memberInactive : UserRec :=
  { id := 22, username := "m2", email := "m2@example.com", fullName := "M Two"
    hashedPassword := "bcrypt$m2pw", role := UserRole.STAFF_USER
    organizationId := some 10, isActive := false, passwordChangedAt := none }

/-- A second Staff member of `orgAcme`, neither creator nor assignee of
`caseOrg`. -/
def staffOutsider : UserRec :=
  { id := 31, username := "s2", email := "s2@example.com", fullName := "S Two"
    hashedPassword := "bcrypt$s2pw", role := UserRole.STAFF_USER
    organizationId := some 10, isActive := true, passwordChangedAt := none }

/-- A case of `orgAcme` created by `memberActive`. -/
def caseOrg : CaseRec :=
  { id := 200, title := "orgcase", description := none, status := CaseStatus.OPEN
    priority := CasePriority.MEDIUM, tags := [], createdBy := 21, assignedTo := none
    organizationId := some 10 }

/-- A tenant-less case created by `indivUser`. -/
def caseNoOrg : CaseRec :=
  { id := 100, title := "solo", description := none, status := CaseStatus.OPEN
    priority := CasePriority.MEDIUM, tags := [], createdBy := 2, assignedTo := none
    organizationId := none }

/-- An evidence row of `caseOrg`. -/
def evOrg : EvidenceRec :=
  { id := 300, caseId := 200, name := "ev", organizationId := some 10, uploadedBy := 21 }

/-- Store for the C3 counterexample: a Super Admin, an Individual user and an
organization. -/
def dbC3 : Db :=
  { users := [saUser, indivUser], organizations := [orgAcme], cases := []
    caseAssignments := [], evidence := [], auditLogs := [] }

/-- A user update that only sets `organization_id` (to `orgAcme`). -/
def updSetOrg : UserUpdateIn :=
  { username := none, email := none, fullName := none, role := none
    isActive := none, password := none, organizationId := some (some 10) }

/-- Store for the C4 counterexample: `orgAcme` with one active and one
already-inactive member. -/
def dbC4 : Db :=
  { users := [saUser, memberActive, memberInactive], organizations := [orgAcme]
    cases := [], caseAssignments := [], evidence := [], auditLogs := [] }

/-- An organization update that only flips `is_active` to false. -/
def deactUpd : OrganizationUpdateIn :=
  { name := none, plan := none, maxUsers := none, maxCases := none, isActive := some false }

/-- Store for the C5 counterexample: one tenant-less case and one active
assignable user. -/
def dbC5 : Db :=
  { users := [saUser, indivUser], organizations := [], cases := [caseNoOrg]
    caseAssignments := [], evidence := [], auditLogs := [] }

/-- Store for the C6 code-bug run: a Super Admin and an existing organization. -/
def dbC6 : Db :=
  { users := [saUser], organizations := [orgAcme], cases := []
    caseAssignments := [], evidence := [], auditLogs := [] }

/-- A case-creation request explicitly targeting `orgAcme`. -/
def caseInC6 : CaseCreateIn :=
  { title := "t", description := none, status := CaseStatus.OPEN
    priority := CasePriority.MEDIUM, tags := [], organizationId := some 10 }

/-- Store for the C10 witness: `caseOrg` with its evidence, its creator and an
unrelated same-organization staff user. -/
def dbC10 : Db :=
  { users := [memberActive, staffOutsider], organizations := [orgAcme], cases := [caseOrg]
    caseAssignments := [], evidence := [evOrg], auditLogs := [] }

/-! ### Helper lemmas -/

/-- Round trip of the role enum through its value string. -/
theorem ofValue_value (r : UserRole) : UserRole.ofValue r.value = some r := by
  cases r <;> rfl

/-- The audit side effect in the failure-free environment only appends one row. -/
theorem auditAppend_eq (db : Db) (user : UserRec) (action resourceType : String)
    (resourceId : Option UUID) (d : List (String × JVal)) (request : Option RequestCtx) :
    auditAppend db user action resourceType resourceId (some d) request =
      { db with auditLogs := db.auditLogs ++
          [{ userId := user.id
             organizationId := user.organizationId
             caseId := none
             action := action
             resourceType := resourceType
             resourceId := resourceId
             details := some d
             ipAddress := match request with | none => "127.0.0.1" | some r => extractIp r
             userAgent := match request with | none => "Unknown" | some r => r.userAgent.getD "Unknown" }] } := by
  cases request <;> rfl

/-- The audit side effect never touches the `users` table. -/
theorem auditAppend_users (db : Db) (user : UserRec) (action resourceType : String)
    (resourceId : Option UUID) (details : Option (List (String × JVal)))
    (request : Option RequestCtx) :
    (auditAppend db user action resourceType resourceId details request).users = db.users := by
  cases details <;> cases request <;> rfl

/-- The audit side effect never touches the `cases` table. -/
theorem auditAppend_cases (db : Db) (user : UserRec) (action resourceType : String)
    (resourceId : Option UUID) (details : Option (List (String × JVal)))
    (request : Option RequestCtx) :
    (auditAppend db user action resourceType resourceId details request).cases = db.cases := by
  cases details <;> cases request <;> rfl

/-- The audit side effect never touches the assignment table. -/
theorem auditAppend_caseAssignments (db : Db) (user : UserRec) (action resourceType : String)
    (resourceId : Option UUID) (details : Option (List (String × JVal)))
    (request : Option RequestCtx) :
    (auditAppend db user action resourceType resourceId details request).caseAssignments =
      db.caseAssignments := by
  cases details <;> cases request <;> rfl

/-- Finding a user by username still succeeds (returning the updated row)
after an id-keyed in-place update, provided the id is unique and the update
keeps the username. -/
theorem find_username_after_update {l : List UserRec} {user upd : UserRec}
    (hfind : l.find? (fun v => v.username == user.username) = some user)
    (hid : ∀ v ∈ l, v.id = user.id → v = user)
    (hname : upd.username = user.username) :
    (l.map (fun v => if v.id = user.id then upd else v)).find?
      (fun v => v.username == user.username) = some upd := by
  induction l with
  | nil => simp at hfind
  | cons a t ih =>
    by_cases ha : (a.username == user.username) = true
    · have hstep : List.find? (fun v => v.username == user.username) (a :: t) = some a :=
        List.find?_cons_of_pos t ha
      rw [hstep] at hfind
      have hau : a = user := by injection hfind
      subst hau
      simp only [List.map_cons, if_pos rfl]
      exact List.find?_cons_of_pos _ (by simp [hname])
    · have hstep : List.find? (fun v => v.username == user.username) (a :: t) =
          List.find? (fun v => v.username == user.username) t :=
        List.find?_cons_of_neg t ha
      rw [hstep] at hfind
      have hidt : ∀ v ∈ t, v.id = user.id → v = user :=
        fun v hv => hid v (List.mem_cons_of_mem _ hv)
      have haid : ¬ a.id = user.id := by
        intro h
        have := hid a (List.mem_cons_self a t) h
        subst this
        simp at ha
      simp only [List.map_cons, if_neg haid]
      have hstep2 : List.find? (fun v => v.username == user.username)
          (a :: List.map (fun v => if v.id = user.id then upd else v) t) =
          List.find? (fun v => v.username == user.username)
            (List.map (fun v => if v.id = user.id then upd else v) t) :=
        List.find?_cons_of_neg _ ha
      rw [hstep2]
      exact ih hfind hidt

/-- `find?` skips a prefix in which nothing matches. -/
theorem find_append_of_none {α : Type} (p : α → Bool) {l1 : List α} (l2 : List α)
    (h : l1.find? p = none) : (l1 ++ l2).find? p = l2.find? p := by
  simp [List.find?_append, h]

/-- Pairing a user list with its bulk-deactivated image, the rows that
actually flip from active to inactive are exactly the active rows matched by
the bulk update. -/
theorem flip_count (l : List UserRec) (p : UserRec → Bool) :
    ((l.zip (l.map (fun u => if p u then { u with isActive := false } else u))).filter
       (fun q => q.1.isActive && !q.2.isActive)).length
      = (l.filter (fun u => p u && u.isActive)).length := by
  induction l with
  | nil => rfl
  | cons a t ih =>
    simp only [List.map_cons, List.zip_cons_cons, List.filter_cons]
    by_cases hp : p a = true
    · cases haA : a.isActive <;> simp [hp, haA, ih]
    · have hp2 : p a = false := by
        cases hval : p a
        · rfl
        · exact absurd hval hp
      cases haA : a.isActive <;> simp [hp2, haA, ih]

/-! ### Claim theorems -/

/-- C6: the spec says a Super Admin supplying an `organization_id` of an
existing organization gets the case created under it; instead the Super-Admin
branch of `create_case` raises `NameError` (the `Organization` model is
referenced but never imported in `app/api/cases.py`), so the request fails
with an internal error and no case is created. -/
theorem C6_super_admin_create_case_raises :
    (dbC6.organizations.find? (fun o => o.id == 10)).isSome = true ∧
    create_case dbC6 caseInC6 saUser 500 none =
      Except.error (ApiError.nameError "Organization") := by
  exact ⟨rfl, rfl⟩

/-- C7: every internal failure of the audit emitter (serialization or any
storage-write step) is caught: `create_audit_log_entry` returns the untouched
store and `none` instead of raising, and on success it returns the appended
row — the caller never sees an exception. -/
theorem C7_audit_failures_swallowed :
    ∀ (env : AuditEnv) (db : Db) (user : UserRec) (action resourceType : String)
      (resourceId : Option UUID) (details : Option (List (String × JVal)))
      (request : Option RequestCtx) (caseId : Option UUID),
      (∀ e, createAuditLogEntryBody env db user action resourceType resourceId details request caseId
          = Except.error e →
        create_audit_log_entry env db user action resourceType resourceId details request caseId
          = (db, none)) ∧
      (∀ v, createAuditLogEntryBody env db user action resourceType resourceId details request caseId
          = Except.ok v →
        create_audit_log_entry env db user action resourceType resourceId details request caseId
          = (v.1, some v.2)) := by
  intro env db user action resourceType resourceId details request caseId
  constructor
  · intro e he
    simp [create_audit_log_entry, he]
  · intro v hv
    simp [create_audit_log_entry, hv]

/-- Witness for C7: a serialization failure yields `(db, none)` rather than an
exception. -/
theorem C7_audit_failures_swallowed_witness :
    create_audit_log_entry (AuditEnv.mk true false false false) dbC6 saUser "CREATE" "Case"
        none (some []) none none
      = (dbC6, none) :=
  (C7_audit_failures_swallowed (AuditEnv.mk true false false false) dbC6 saUser "CREATE" "Case"
      none (some []) none none).1
    "serialization failed" rfl

/-- C8: when the freshly loaded user's stored `password_changed_at` is null,
`get_current_user` skips the staleness comparison and accepts the token
whatever epoch it embeds. -/
theorem C8_null_epoch_skips_staleness_check :
    ∀ (db : Db) (payload : TokenPayload) (localTz : Int) (username roleStr : String)
      (tokenPw : DateTimeTZ) (user : UserRec),
      payload.sub = some username →
      payload.role = some roleStr →
      payload.passwordChangedAt = some tokenPw →
      UserRole.ofValue roleStr = some user.role →
      db.users.find? (fun u => u.username == username) = some user →
      payload.organizationId = user.organizationId →
      user.passwordChangedAt = none →
      get_current_user db payload localTz = Except.ok user := by
  intro db payload localTz username roleStr tokenPw user hsub hrole hpw hof hfind horg hnone
  simp [get_current_user, hsub, hrole, hpw, hof, hfind, horg, hnone]

/-- Witness for C8: a token whose embedded epoch is arbitrarily old is
accepted for a user whose stored epoch is null. -/
theorem C8_null_epoch_skips_staleness_check_witness :
    get_current_user dbC3
      { sub := some "indie", role := some "INDIVIDUAL_USER", organizationId := none,
        passwordChangedAt := some { instant := -999, tzOffset := 0 } } 0
      = Except.ok indivUser :=
  C8_null_epoch_skips_staleness_check dbC3 _ 0 "indie" "INDIVIDUAL_USER"
    { instant := -999, tzOffset := 0 } indivUser rfl rfl rfl rfl rfl rfl rfl

/-- C9: the password-reset response carries a `token` field exactly when the
email matches an existing user, while the message text is identical in both
runs — the responses are distinguishable and leak account existence. -/
theorem C9_reset_response_leaks_account_existence :
    ∀ (db : Db) (tokens : List (String × UUID × DateTimeTZ)) (email newToken : String)
      (now : DateTimeTZ),
      ((request_password_reset db tokens email newToken now).2.token.isSome
         = (db.users.find? (fun u => u.email == email)).isSome) ∧
      (request_password_reset db tokens email newToken now).2.message
         = "If the email exists, a password reset link has been sent." := by
  intro db tokens email newToken now
  cases h : db.users.find? (fun u => u.email == email) <;>
    simp [request_password_reset, h]

/-- C10: there is a same-organization Staff user, neither creator nor
assignee of a case, for whom `read_case` answers 403 while
`read_evidence_for_case` on the same case succeeds and returns its evidence. -/
theorem C10_evidence_listing_bypasses_case_predicate :
    ∃ (db : Db) (staff : UserRec) (caseId : UUID) (theCase : CaseRec),
      db.cases.find? (fun c => c.id == caseId) = some theCase ∧
      staff.role = UserRole.STAFF_USER ∧
      theCase.organizationId = staff.organizationId ∧
      theCase.createdBy ≠ staff.id ∧
      theCase.assignedTo ≠ some staff.id ∧
      is_assigned_via_table db caseId staff.id = false ∧
      read_case db caseId staff none =
        Except.error (ApiError.http 403 "Not authorized to access this case.") ∧
      (∃ dbOut evs, read_evidence_for_case db caseId 0 100 staff none = Except.ok (dbOut, evs) ∧
        evs ≠ []) := by
  refine ⟨dbC10, staffOutsider, 200, caseOrg, rfl, rfl, rfl, by decide, by decide, rfl, rfl,
    ⟨_, [evOrg], rfl, by decide⟩⟩

/-- C2: for every actor and case the read and update authorization chains
make the same allow/deny decision; deletion implies update permission for
Staff/Individual actors; and an assigned-but-not-creator Staff or Individual
actor is allowed to update but denied deletion. -/
theorem C2_read_update_same_delete_narrower :
    (∀ (db : Db) (theCase : CaseRec) (caseId : UUID) (currentUser : UserRec),
       allows (read_case_auth db theCase caseId currentUser) =
         allows (update_case_auth db theCase caseId currentUser))
    ∧
    (∀ (db : Db) (theCase : CaseRec) (caseId : UUID) (currentUser : UserRec),
       (currentUser.role = UserRole.STAFF_USER ∨ currentUser.role = UserRole.INDIVIDUAL_USER) →
       allows (delete_case_auth theCase currentUser) = true →
       allows (update_case_auth db theCase caseId currentUser) = true)
    ∧
    (∀ (db : Db) (theCase : CaseRec) (caseId : UUID) (currentUser : UserRec),
       (currentUser.role = UserRole.STAFF_USER ∨ currentUser.role = UserRole.INDIVIDUAL_USER) →
       (theCase.assignedTo = some currentUser.id ∨
         is_assigned_via_table db caseId currentUser.id = true) →
       theCase.createdBy ≠ currentUser.id →
       allows (update_case_auth db theCase caseId currentUser) = true ∧
       allows (delete_case_auth theCase currentUser) = false) := by
  refine ⟨?_, ?_, ?_⟩
  · intro db theCase caseId currentUser
    cases hr : currentUser.role <;>
      simp only [read_case_auth, update_case_auth, hr] <;>
      (repeat' split) <;> simp_all [allows]
  · intro db theCase caseId currentUser hrole hdel
    rcases hrole with hr | hr
    · simp [delete_case_auth, hr, allows] at hdel
    · simp only [delete_case_auth, hr] at hdel
      by_cases hcreated : theCase.createdBy = currentUser.id
      · simp [update_case_auth, hr, hcreated, allows]
      · simp [hcreated, allows] at hdel
  · intro db theCase caseId currentUser hrole hassigned hcreated
    have hupd : allows (update_case_auth db theCase caseId currentUser) = true := by
      rcases hrole with hr | hr <;>
        rcases hassigned with hassign | hassign <;>
        simp [update_case_auth, hr, hassign, allows]
    refine ⟨hupd, ?_⟩
    rcases hrole with hr | hr
    · simp [delete_case_auth, hr, allows]
    · simp [delete_case_auth, hr, hcreated, allows]

/-- Witness for C2: a Staff user assigned through the assignment table but
not the creator may update but not delete a same-organization case. -/
theorem C2_read_update_same_delete_narrower_witness :
    allows (update_case_auth
        { dbC10 with caseAssignments := [CaseAssignmentRec.mk 200 31 (some 21)] }
        caseOrg 200 staffOutsider) = true ∧
    allows (delete_case_auth caseOrg staffOutsider) = false :=
  (C2_read_update_same_delete_narrower).2.2
    { dbC10 with caseAssignments := [CaseAssignmentRec.mk 200 31 (some 21)] }
    caseOrg 200 staffOutsider (Or.inl rfl) (Or.inr (by decide)) (by decide)

/-- C1: an otherwise-valid token is rejected with the 401
password-changed error whenever the stored credential-epoch is strictly later
than the token's embedded epoch (both compared after normalization into the
same timezone); consequently a token embedding the pre-change epoch is
rejected once `change_password` commits a later `password_changed_at`. -/
theorem C1_stale_epoch_token_rejected :
    (∀ (db : Db) (payload : TokenPayload) (localTz : Int) (username roleStr : String)
       (tokenPw userPw : DateTimeTZ) (user : UserRec),
       payload.sub = some username →
       payload.role = some roleStr →
       payload.passwordChangedAt = some tokenPw →
       UserRole.ofValue roleStr = some user.role →
       db.users.find? (fun u => u.username == username) = some user →
       payload.organizationId = user.organizationId →
       user.passwordChangedAt = some userPw →
       tokenPw.instant < userPw.instant →
       get_current_user db payload localTz =
         Except.error (ApiError.http 401 "Your password has been changed. Please log in again."))
    ∧
    (∀ (db db2 : Db) (user : UserRec) (t0 now : DateTimeTZ) (localTz : Int)
       (passwordData : ChangePasswordRequest) (request : Option RequestCtx) (msg : String),
       db.users.find? (fun u => u.username == user.username) = some user →
       (∀ v ∈ db.users, v.id = user.id → v = user) →
       user.passwordChangedAt = some t0 →
       t0.instant < now.instant →
       change_password db user passwordData now request = Except.ok (db2, msg) →
       get_current_user db2
           (create_access_token user.username user.role user.organizationId t0) localTz =
         Except.error (ApiError.http 401 "Your password has been changed. Please log in again.")) := by
  constructor
  · intro db payload localTz username roleStr tokenPw userPw user
      hsub hrole hpw hof hfind horg hstored hlt
    simp [get_current_user, hsub, hrole, hpw, hof, hfind, horg, hstored, astimezone, dtGt, hlt]
  · intro db db2 user t0 now localTz passwordData request msg hfind hid ht0 hlt hcp
    by_cases hv : verify_password passwordData.currentPassword user.hashedPassword = true
    · rw [change_password] at hcp
      rw [if_neg (by simp [hv])] at hcp
      have hdb2 : db2 = auditAppend
          { db with users := db.users.map (fun v => if v.id = user.id then
              { user with
                hashedPassword := get_password_hash passwordData.newPassword
                passwordChangedAt := some now } else v) }
          { user with
            hashedPassword := get_password_hash passwordData.newPassword
            passwordChangedAt := some now }
          "UPDATE" "User" (some user.id)
          (some [("action", JVal.jstr "password_change")]) request := by
        have := hcp
        injection this with h1
        injection h1 with h2 h3
        exact h2.symm
      have husers : db2.users = db.users.map (fun v => if v.id = user.id then
          { user with
            hashedPassword := get_password_hash passwordData.newPassword
            passwordChangedAt := some now } else v) := by
        rw [hdb2, auditAppend_users]
      have hfind2 : db2.users.find? (fun v => v.username == user.username) =
          some { user with
            hashedPassword := get_password_hash passwordData.newPassword
            passwordChangedAt := some now } := by
        rw [husers]
        exact find_username_after_update hfind hid rfl
      simp [get_current_user, create_access_token, ofValue_value, hfind2,
        astimezone, dtGt, hlt]
    · rw [change_password] at hcp
      rw [if_pos (by simp [hv])] at hcp
      exact absurd hcp (by simp)

/-- Witness for C1: both the direct staleness rejection and the
change-then-reuse flow at concrete inputs. -/
theorem C1_stale_epoch_token_rejected_witness :
    get_current_user
        { dbC3 with users := [saUser,
            { indivUser with passwordChangedAt := some (DateTimeTZ.mk 100 0) }] }
        { sub := some "indie", role := some "INDIVIDUAL_USER", organizationId := none,
          passwordChangedAt := some (DateTimeTZ.mk 50 0) } 0
      = Except.error (ApiError.http 401 "Your password has been changed. Please log in again.") :=
  (C1_stale_epoch_token_rejected).1
    { dbC3 with users := [saUser,
        { indivUser with passwordChangedAt := some (DateTimeTZ.mk 100 0) }] }
    _ 0 "indie" "INDIVIDUAL_USER" (DateTimeTZ.mk 50 0) (DateTimeTZ.mk 100 0)
    { indivUser with passwordChangedAt := some (DateTimeTZ.mk 100 0) }
    rfl rfl rfl rfl rfl rfl rfl (by decide)

/-- Counterexample for C3: a Super Admin `update_user` call that sets an
`organization_id` on an Individual-tier user is not rejected — the user is
persisted with role `INDIVIDUAL_USER` and a non-null organization reference. -/
theorem C3_super_admin_update_persists_individual_org :
    ∃ (db2 : Db) (updated : UserRec),
      update_user dbC3 2 updSetOrg saUser dtZero none = Except.ok (db2, updated) ∧
      updated.role = UserRole.INDIVIDUAL_USER ∧
      updated.organizationId = some 10 ∧
      updated ∈ db2.users := by
  refine ⟨_, _, rfl, rfl, rfl, ?_⟩
  decide

/-- C3 (amended): `create_user` never persists an Individual-tier user with an
organization — an explicit attempt is rejected with a 400 for every acting
role, and any successfully created Individual user carries no organization;
`update_user` does not enforce the invariant (see the counterexample). -/
theorem C3_create_user_individual_never_with_org :
    (∀ (db : Db) (userIn : UserCreateIn) (currentUser : UserRec) (newId : UUID)
       (now : DateTimeTZ) (request : Option RequestCtx),
       userIn.role = UserRole.INDIVIDUAL_USER →
       userIn.organizationId ≠ none →
       ∃ d, create_user db userIn currentUser newId now request =
         Except.error (ApiError.http 400 d))
    ∧
    (∀ (db : Db) (userIn : UserCreateIn) (currentUser : UserRec) (newId : UUID)
       (now : DateTimeTZ) (request : Option RequestCtx) (db1 : Db) (u : UserRec),
       userIn.role = UserRole.INDIVIDUAL_USER →
       create_user db userIn currentUser newId now request = Except.ok (db1, u) →
       u.organizationId = none) := by
  constructor
  · intro db userIn currentUser newId now request hrole horg
    by_cases hA : (db.users.find? (fun u => u.username == userIn.username)).isSome = true
    · exact ⟨"Username already registered", by simp [create_user, hA]⟩
    · by_cases hB : (db.users.find? (fun u => u.email == userIn.email)).isSome = true
      · exact ⟨"Email already registered", by simp [create_user, hA, hB]⟩
      · exact ⟨"Individual users cannot be assigned to an organization.",
          by simp [create_user, hA, hB, hrole, horg]⟩
  · intro db userIn currentUser newId now request db1 u hrole heq
    by_cases hA : (db.users.find? (fun v => v.username == userIn.username)).isSome = true
    · simp [create_user, hA] at heq
    · by_cases hB : (db.users.find? (fun v => v.email == userIn.email)).isSome = true
      · simp [create_user, hA, hB] at heq
      · by_cases horg : userIn.organizationId = none
        · cases hcu : currentUser.role
          · simp [create_user, hA, hB, hrole, horg, hcu] at heq
            obtain ⟨h1, h2⟩ := heq
            subst h2
            rfl
          · cases hcuo : currentUser.organizationId
            · simp [create_user, hA, hB, hrole, horg, hcu, hcuo] at heq
            · simp [create_user, hA, hB, hrole, horg, hcu, hcuo] at heq
              obtain ⟨h1, h2⟩ := heq
              subst h2
              rfl
          · simp [create_user, hA, hB, hrole, horg, hcu] at heq
          · simp [create_user, hA, hB, hrole, horg, hcu] at heq
        · simp [create_user, hA, hB, hrole, horg] at heq

/-- Witness for C3 (amended): the explicit Individual-plus-organization
creation attempt is rejected with a 400 even for a Super Admin actor. -/
theorem C3_create_user_individual_never_with_org_witness :
    ∃ d, create_user dbC3
        { username := "newbie", email := "newbie@example.com", fullName := "N",
          role := UserRole.INDIVIDUAL_USER, isActive := true, organizationId := some 10,
          password := "pw" } saUser 99 dtZero none = Except.error (ApiError.http 400 d) :=
  (C3_create_user_individual_never_with_org).1 dbC3
    { username := "newbie", email := "newbie@example.com", fullName := "N",
      role := UserRole.INDIVIDUAL_USER, isActive := true, organizationId := some 10,
      password := "pw" } saUser 99 dtZero none rfl (by decide)

/-- Counterexample for C4: deactivating `orgAcme`, which has exactly one
active member, emits a cascade audit entry whose `affected_users_count` is 2
(the bulk update also matches the already-inactive member), not the claimed
K = 1. -/
theorem C4_cascade_count_includes_inactive_members :
    (dbC4.users.filter (fun u => u.organizationId == some 10 && u.isActive)).length = 1 ∧
    ∃ (db3 : Db) (org2 : OrganizationRec),
      update_organization dbC4 10 deactUpd saUser none = Except.ok (db3, org2) ∧
      (db3.auditLogs.filter isCascadeEntry).map
          (fun e => (e.details.getD []).lookup "affected_users_count")
        = [some (JVal.jnum 2)] := by
  refine ⟨rfl, _, _, rfl, ?_⟩
  rfl

/-- C4 (amended): flipping `is_active` from true to false deactivates every
member row, flipping exactly the K previously-active members, and appends
exactly one cascade audit entry — distinct from the organization's own audit
entry — whose `affected_users_count` is the total member count (equal to K
only when no member was already inactive). -/
theorem C4_deactivation_cascade_semantics :
    ∀ (db : Db) (orgId : UUID) (orgUpdate : OrganizationUpdateIn) (currentUser : UserRec)
      (request : Option RequestCtx) (org : OrganizationRec),
      db.organizations.find? (fun o => o.id == orgId) = some org →
      org.isActive = true →
      orgUpdate.isActive = some false →
      (∃ r, update_organization db orgId orgUpdate currentUser request = Except.ok r) ∧
      (∀ (db3 : Db) (updatedOrg : OrganizationRec),
        update_organization db orgId orgUpdate currentUser request = Except.ok (db3, updatedOrg) →
        updatedOrg.isActive = false ∧
        db3.users = db.users.map (fun u =>
          if u.organizationId == some orgId then { u with isActive := false } else u) ∧
        ((db.users.zip db3.users).filter (fun q => q.1.isActive && !q.2.isActive)).length
          = (db.users.filter (fun u => u.organizationId == some orgId && u.isActive)).length ∧
        ∃ (cascadeEntry orgEntry : AuditLogRec),
          db3.auditLogs = db.auditLogs ++ [cascadeEntry, orgEntry] ∧
          isCascadeEntry cascadeEntry = true ∧
          isCascadeEntry orgEntry = false ∧
          (cascadeEntry.details.getD []).lookup "affected_users_count"
            = some (JVal.jnum
                ((db.users.filter (fun u => u.organizationId == some orgId)).length))) := by
  intro db orgId orgUpdate currentUser request org hfind horgact hupd
  constructor
  · cases hval : update_organization db orgId orgUpdate currentUser request with
    | error e =>
      simp [update_organization, hfind, hupd, horgact] at hval
    | ok r => exact ⟨r, rfl⟩
  · intro db3 updatedOrg heq
    simp only [update_organization, hfind, hupd, horgact, and_self, if_true,
      auditAppend_eq] at heq
    injection heq with hpair
    injection hpair with h1 h2
    subst h1
    subst h2
    refine ⟨?_, ?_, ?_, ?_⟩
    · simp [apply_org_update, hupd]
    · rfl
    · exact flip_count db.users (fun u => u.organizationId == some orgId)
    · refine ⟨cascadeAuditEntry db orgId currentUser request,
        orgUpdateAuditEntry org orgUpdate currentUser request,
        ?_, ?_, ?_, ?_⟩
      · show db.auditLogs ++ [_] ++ [_] = db.auditLogs ++ [_, _]
        rw [List.append_assoc]
        rfl
      · rfl
      · rfl
      · rfl

/-- Witness for C4 (amended): the deactivation run on the concrete store
succeeds. -/
theorem C4_deactivation_cascade_semantics_witness :
    ∃ r, update_organization dbC4 10 deactUpd saUser none = Except.ok r :=
  (C4_deactivation_cascade_semantics dbC4 10 deactUpd saUser none orgAcme rfl rfl rfl).1

/-- Counterexample for C5: with one eligible active user, the batch
`[u1, u1]` is rejected with a 400 — the validity check compares the count of
distinct matched users (1) against the raw list length (2) — instead of
succeeding idempotently as claimed. -/
theorem C5_duplicate_batch_rejected :
    indivUser.isActive = true ∧
    indivUser ∈ dbC5.users ∧
    assign_users_to_case dbC5 100 [2, 2] saUser none =
      Except.error (ApiError.http 400 "One or more user IDs are invalid or inactive.") := by
  exact ⟨rfl, by decide, rfl⟩

/-- C5 (amended): assignment is idempotent across requests — a first
single-user assignment creates exactly one `(case, user)` row, and repeating
the identical request is a no-op success (empty created list, assignment
table unchanged, the pair still present exactly once); a batch listing the
same user twice, however, is rejected with a 400 (see the counterexample). -/
theorem C5_assignment_idempotent_across_requests :
    ∀ (db : Db) (caseId : UUID) (u : UserRec) (currentUser : UserRec)
      (request : Option RequestCtx) (theCase : CaseRec),
      db.cases.find? (fun c => c.id == caseId) = some theCase →
      currentUser.role = UserRole.SUPER_ADMIN →
      db.users.filter (fun v => [u.id].contains v.id && v.isActive) = [u] →
      (theCase.organizationId = none ∨ u.organizationId = theCase.organizationId) →
      db.caseAssignments.find? (fun a => a.caseId == caseId && a.userId == u.id) = none →
      ∃ (db1 : Db) (created1 : List UUID) (db2 : Db) (created2 : List UUID),
        assign_users_to_case db caseId [u.id] currentUser request = Except.ok (db1, created1) ∧
        (db1.caseAssignments.filter (fun a => a.caseId == caseId && a.userId == u.id)).length = 1 ∧
        assign_users_to_case db1 caseId [u.id] currentUser request = Except.ok (db2, created2) ∧
        created2 = [] ∧
        db2.caseAssignments = db1.caseAssignments ∧
        (db2.caseAssignments.filter (fun a => a.caseId == caseId && a.userId == u.id)).length = 1 := by
  intro db caseId u currentUser request theCase hfind hrole husers horg hfresh
  have hbase : db.caseAssignments.filter (fun a => a.caseId == caseId && a.userId == u.id) = [] := by
    rw [List.filter_eq_nil_iff]
    exact fun a ha => List.find?_eq_none.mp hfresh a ha
  have hA : ∀ db0 : Db, db0.caseAssignments = db.caseAssignments ++
      [{ caseId := caseId, userId := u.id, assignedBy := some currentUser.id }] →
      (db0.caseAssignments.filter (fun a => a.caseId == caseId && a.userId == u.id)).length = 1 := by
    intro db0 h0
    rw [h0, List.filter_append, hbase]
    simp
  have hfreshP : ¬ ∃ x ∈ db.caseAssignments, x.caseId = caseId ∧ x.userId = u.id := by
    have h0 := List.find?_eq_none.mp hfresh
    simpa using h0
  have husersP : List.filter (fun v => decide (v.id = u.id) && v.isActive) db.users = [u] := by
    simpa using husers
  have h1run : assign_users_to_case db caseId [u.id] currentUser request =
      Except.ok (auditAppend { db with caseAssignments := db.caseAssignments ++
          [{ caseId := caseId, userId := u.id, assignedBy := some currentUser.id }] }
        currentUser "ASSIGN" "Case" (some caseId) (some [("assigned_users", JVal.jnull)]) request,
        [u.id]) := by
    simp only [assign_users_to_case, hfind]
    rcases horg with h | h
    · simp [hrole, husersP, h, hfreshP]
    · cases hto : theCase.organizationId with
      | none => simp [hrole, husersP, hto, hfreshP]
      | some o =>
        rw [hto] at h
        simp [hrole, husersP, hto, h, hfreshP]
  set A : CaseAssignmentRec :=
    { caseId := caseId, userId := u.id, assignedBy := some currentUser.id } with hAdef
  set DB1 : Db := auditAppend { db with caseAssignments := db.caseAssignments ++ [A] }
    currentUser "ASSIGN" "Case" (some caseId) (some [("assigned_users", JVal.jnull)]) request
    with hDB1
  have hdb1asg : DB1.caseAssignments = db.caseAssignments ++ [A] := by
    rw [hDB1, auditAppend_caseAssignments]
  have hdb1cases : DB1.cases = db.cases := by
    rw [hDB1, auditAppend_cases]
  have hdb1users : DB1.users = db.users := by
    rw [hDB1, auditAppend_users]
  have hexistsP : ∃ x ∈ DB1.caseAssignments, x.caseId = caseId ∧ x.userId = u.id := by
    rw [hdb1asg]
    exact ⟨A, by simp, by simp [hAdef]⟩
  have husersP1 : List.filter (fun v => decide (v.id = u.id) && v.isActive) DB1.users = [u] := by
    rw [hdb1users]
    exact husersP
  have hfind1 : List.find? (fun c => c.id == caseId) DB1.cases = some theCase := by
    rw [hdb1cases]
    exact hfind
  have h2run : assign_users_to_case DB1 caseId [u.id] currentUser request =
      Except.ok (auditAppend DB1 currentUser "ASSIGN" "Case" (some caseId)
        (some [("assigned_users", JVal.jnull)]) request, []) := by
    simp only [assign_users_to_case, hfind1]
    rcases horg with h | h
    · simp [hrole, husersP1, h, hexistsP]
    · cases hto : theCase.organizationId with
      | none => simp [hrole, husersP1, hto, hexistsP]
      | some o =>
        rw [hto] at h
        simp [hrole, husersP1, hto, h, hexistsP]
  refine ⟨DB1, [u.id], _, [], h1run, hA DB1 hdb1asg, h2run, rfl, ?_, ?_⟩
  · rw [auditAppend_caseAssignments]
  · rw [auditAppend_caseAssignments]
    exact hA DB1 hdb1asg

/-- Witness for C5 (amended): the two-run idempotence flow on the concrete
store. -/
theorem C5_assignment_idempotent_across_requests_witness :
    ∃ (db1 : Db) (created1 : List UUID) (db2 : Db) (created2 : List UUID),
      assign_users_to_case dbC5 100 [indivUser.id] saUser none = Except.ok (db1, created1) ∧
      (db1.caseAssignments.filter
        (fun a => a.caseId == 100 && a.userId == indivUser.id)).length = 1 ∧
      assign_users_to_case db1 100 [indivUser.id] saUser none = Except.ok (db2, created2) ∧
      created2 = [] ∧
      db2.caseAssignments = db1.caseAssignments ∧
      (db2.caseAssignments.filter
        (fun a => a.caseId == 100 && a.userId == indivUser.id)).length = 1 :=
  C5_assignment_idempotent_across_requests dbC5 100 indivUser saUser none caseNoOrg
    rfl rfl (by decide) (Or.inl rfl) rfl

end CaseMgmt
